import Mathlib

/-!
Verification of the CnQuant_utilities environment-variable accessor module
(src/CnQuant_utilities/get_variables_from_path.py) against its specification.

Shallow embedding choices, stated once here:

* The process environment (consulted through Python os.getenv) is modelled
  as a total function from variable names to optional string values.
* The filesystem existence predicate (Python os.path.exists) is modelled as
  a total predicate on path strings.
* pathlib.Path construction is modelled as carrying the raw string form of
  the path; pathlib textual normalisation is irrelevant to every property
  verified here, which only distinguish which string reaches the Path
  constructor and whether an error is raised instead.
* Python exceptions are modelled with Except: a function that can raise
  EnvironmentVariableNotFoundError returns
  Except EnvironmentVariableNotFoundError α; functions whose Python bodies
  cannot raise (they catch ValueError internally and fall back to the
  default) have a plain, total return type.
* Python int(...) and float(...) applied to a string are modelled as
  fallible parsers (Except Unit _), mirroring that they raise ValueError on
  malformed text; the grammar implemented below follows CPython for ASCII
  input: surrounding whitespace stripped, optional sign, digit runs with
  single underscores strictly between digits, and for floats an optional
  fractional part, optional exponent, and the special spellings inf,
  infinity and nan (case-insensitive). Python str.lower is modelled
  characterwise with Char.toLower; the two agree on ASCII text, which
  covers every string the module compares against.
* Python float values are modelled exactly (as rationals plus infinities
  and nan) rather than as IEEE doubles; no verified property depends on
  rounding.
* print diagnostics are pure console output and are not modelled; they do
  not affect any returned value or the environment.
-/

/-- Process environment: a mapping from variable names to optional values,
modelling what os.getenv observes. -/
abbrev Env : Type := String → Option String

/-- Filesystem existence oracle, modelling os.path.exists. -/
abbrev FS : Type := String → Bool

/-- pathlib.Path, modelled by the textual form of the path (named PyPath to avoid clashing with the ambient library). -/
structure PyPath where
  toString : String
deriving Repr, DecidableEq

/-- The custom exception class EnvironmentVariableNotFoundError: carries
the offending variable name and a human-readable message. -/
structure EnvironmentVariableNotFoundError where
  variable_name : String
  message : String
deriving Repr, DecidableEq

/-- The exception constructor: Python evaluates the expression
message or f-string, so an empty message argument is replaced by the
default text (the source wraps the variable name in single quotes; the
quotes are dropped here, which no verified property depends on). -/
def EnvironmentVariableNotFoundError.make (variable_name : String)
    (message : String) : EnvironmentVariableNotFoundError :=
  ⟨variable_name,
   if message = "" then
     "Environment variable " ++ variable_name ++ " not found."
   else message⟩

/-- Every raise site in the module constructs the exception with the
default message; this is that construction. -/
def mkNotFound (variable_name : String) : EnvironmentVariableNotFoundError :=
  EnvironmentVariableNotFoundError.make variable_name ""

/-- Numeric value of an ASCII digit character. -/
def digitVal (c : Char) : Nat := c.toNat - 48

/-- Strip leading and trailing whitespace from a character list (the
whitespace stripping Python int and float perform on their argument),
implemented by structural recursion so that concrete evaluation reduces. -/
def trimChars (cs : List Char) : List Char :=
  ((cs.dropWhile Char.isWhitespace).reverse.dropWhile Char.isWhitespace).reverse

/-- Python str.lower, modelled characterwise with Char.toLower (the two
agree on the ASCII text this module compares against), implemented over
the character list so that concrete evaluation reduces. -/
def pyLower (s : String) : String := String.mk (s.data.map Char.toLower)

/-- Continue a digit run in which single underscores may stand strictly
between digits (CPython numeric-literal rule), accumulating the value and
the count of digits consumed so far. -/
def parseRunUnd : List Char → Nat → Nat → Option (Nat × Nat)
  | [], acc, cnt => some (acc, cnt)
  | '_' :: d :: rest, acc, cnt =>
      if d.isDigit then parseRunUnd rest (10 * acc + digitVal d) (cnt + 1)
      else none
  | ['_'], _, _ => none
  | c :: rest, acc, cnt =>
      if c.isDigit then parseRunUnd rest (10 * acc + digitVal c) (cnt + 1)
      else none

/-- Parse a possibly-empty digit run (underscores allowed between digits);
returns the value and the number of digits. A run may not begin with an
underscore. -/
def parseOptRun (cs : List Char) : Option (Nat × Nat) :=
  match cs with
  | [] => some (0, 0)
  | c :: rest =>
      if c.isDigit then parseRunUnd rest (digitVal c) 1 else none

/-- Parse a digit run that must contain at least one digit. -/
def parseNonemptyRun (cs : List Char) : Option Nat :=
  match parseOptRun cs with
  | some (v, cnt) => if cnt = 0 then none else some v
  | none => none

/-- Python int(string): strip surrounding whitespace, optional sign, then a
nonempty digit run; ValueError (modelled as Except.error) otherwise. -/
def pyInt (s : String) : Except Unit Int :=
  match trimChars s.data with
  | '+' :: rest =>
      match parseNonemptyRun rest with
      | some n => .ok (Int.ofNat n)
      | none => .error ()
  | '-' :: rest =>
      match parseNonemptyRun rest with
      | some n => .ok (-(Int.ofNat n))
      | none => .error ()
  | cs =>
      match parseNonemptyRun cs with
      | some n => .ok (Int.ofNat n)
      | none => .error ()

/-- Python float values: finite rationals, signed infinity, nan. -/
inductive PyFloat where
  | finite (q : Rat)
  | inf (neg : Bool)
  | nan
deriving Repr, DecidableEq

/-- Split a character list at the first dot, if any. -/
def splitOnDot : List Char → List Char × Option (List Char)
  | [] => ([], none)
  | '.' :: rest => ([], some rest)
  | c :: rest =>
      let p := splitOnDot rest
      (c :: p.1, p.2)

/-- Split a character list at the first exponent marker (e or E), if any. -/
def splitOnExp : List Char → List Char × Option (List Char)
  | [] => ([], none)
  | c :: rest =>
      if c = 'e' ∨ c = 'E' then ([], some rest)
      else
        let p := splitOnExp rest
        (c :: p.1, p.2)

/-- Parse the mantissa of a float literal: integer part, optional dot,
fractional part; at least one digit overall. Returns
(integer value, fractional value, fractional digit count). -/
def parseMantissa (cs : List Char) : Option (Nat × Nat × Nat) :=
  let p := splitOnDot cs
  match p.2 with
  | none =>
      match parseOptRun p.1 with
      | some (iv, ic) => if ic = 0 then none else some (iv, 0, 0)
      | none => none
  | some fp =>
      match parseOptRun p.1, parseOptRun fp with
      | some (iv, ic), some (fv, fc) =>
          if ic + fc = 0 then none else some (iv, fv, fc)
      | _, _ => none

/-- Parse a float exponent: optional sign then a nonempty digit run. -/
def parseExp (cs : List Char) : Option Int :=
  match cs with
  | '+' :: rest => (parseNonemptyRun rest).map Int.ofNat
  | '-' :: rest => (parseNonemptyRun rest).map (fun n => -(Int.ofNat n))
  | other => (parseNonemptyRun other).map Int.ofNat

/-- Assemble the rational value of a parsed float literal. -/
def ratOfParts (neg : Bool) (iv fv fc : Nat) (e : Int) : Rat :=
  let m : Rat := ((iv * 10 ^ fc + fv : Nat) : Rat) / ((10 ^ fc : Nat) : Rat)
  let scaled : Rat :=
    if 0 ≤ e then m * (((10 : Nat) ^ e.toNat : Nat) : Rat)
    else m / (((10 : Nat) ^ (-e).toNat : Nat) : Rat)
  if neg then -scaled else scaled

/-- Python float(string): strip whitespace, optional sign, then either a
special spelling (inf, infinity, nan, case-insensitive) or a decimal
literal with optional fraction and exponent; ValueError otherwise. -/
def pyFloat (s : String) : Except Unit PyFloat :=
  let t := trimChars s.data
  let sp : Bool × List Char :=
    match t with
    | '+' :: rest => (false, rest)
    | '-' :: rest => (true, rest)
    | rest => (false, rest)
  let neg := sp.1
  let body := sp.2
  let lower := body.map Char.toLower
  if lower = ("inf").data ∨ lower = ("infinity").data then
    .ok (PyFloat.inf neg)
  else if lower = ("nan").data then .ok PyFloat.nan
  else
    let q := splitOnExp body
    match parseMantissa q.1 with
    | none => .error ()
    | some (iv, fv, fc) =>
        match q.2 with
        | none => .ok (PyFloat.finite (ratOfParts neg iv fv fc 0))
        | some ecs =>
            match parseExp ecs with
            | none => .error ()
            | some e => .ok (PyFloat.finite (ratOfParts neg iv fv fc e))

/-- Python str applied to an optional string: str(None) is the text None,
str(s) for a string s is s itself. -/
def pyStr : Option String → String
  | none => "None"
  | some s => s

/-- The str call inside get_string_from_env sits in a try/except
ValueError block; it is modelled as a fallible call so the except branch
appears in the model, but str never raises ValueError, so the result is
always ok. -/
def pyStrE (o : Option String) : Except Unit String := .ok (pyStr o)

/-- get_log_directory: look up the variable; unset defaults the raw path
to the dot; a set value whose path does not exist raises; the surviving
raw path is returned as a Path. -/
def get_log_directory (env : Env) (fs : FS) (env_variable : String) :
    Except EnvironmentVariableNotFoundError PyPath :=
  match env env_variable with
  | none => .ok (PyPath.mk ("."))
  | some log_directory =>
      if !(fs log_directory) then .error (mkNotFound env_variable)
      else .ok (PyPath.mk log_directory)

/-- get_path_from_env: unset raises; otherwise build the Path, and raise
when existence checking is requested and the path does not exist. -/
def get_path_from_env (env : Env) (fs : FS) (env_variable : String)
    (check_if_exists : Bool) : Except EnvironmentVariableNotFoundError PyPath :=
  match env env_variable with
  | none => .error (mkNotFound env_variable)
  | some env_value =>
      let path := PyPath.mk env_value
      if check_if_exists && !(fs env_value) then .error (mkNotFound env_variable)
      else .ok path

/-- get_integer_from_env: unset falls back to the default (with a printed
notice); otherwise int(...) is attempted and ValueError falls back to the
default. The return type is Int: the Python function cannot raise. -/
def get_integer_from_env (env : Env) (env_variable : String)
    (default_value : Int) : Int :=
  match env env_variable with
  | none => default_value
  | some env_value =>
      match pyInt env_value with
      | .ok n => n
      | .error _ => default_value

/-- get_float_from_env: same shape as the integer accessor, with
float(...) as the coercion. The return type is PyFloat: the Python
function cannot raise. -/
def get_float_from_env (env : Env) (env_variable : String)
    (default_value : PyFloat) : PyFloat :=
  match env env_variable with
  | none => default_value
  | some env_value =>
      match pyFloat env_value with
      | .ok q => q
      | .error _ => default_value

/-- get_string_from_env: raises only when error_on_missing_value is set
and the variable is unset; otherwise returns str of the looked-up optional
value, with an except ValueError branch falling back to the default. -/
def get_string_from_env (env : Env) (env_variable : String)
    (default_value : String) (error_on_missing_value : Bool) :
    Except EnvironmentVariableNotFoundError String :=
  let env_value := env env_variable
  if error_on_missing_value && env_value.isNone then
    .error (mkNotFound env_variable)
  else
    match pyStrE env_value with
    | .ok s => .ok s
    | .error _ => .ok default_value

/-- get_boolean_from_env: unset falls back to the default; otherwise the
lowercased value is compared against the truthy and falsy literal sets,
anything else falling back to the default. The return type is Bool: the
Python function cannot raise. -/
def get_boolean_from_env (env : Env) (env_variable : String)
    (default_value : Bool) : Bool :=
  match env env_variable with
  | none => default_value
  | some env_value =>
      let lower_env_value := pyLower env_value
      if ["true", "1", "yes", "on"].contains lower_env_value then true
      else if ["false", "0", "no", "off"].contains lower_env_value then false
      else default_value

/-- Process-wide state visible to the module: the environment mapping and
the filesystem. The module only ever reads both. -/
structure ProcState where
  env : Env
  fs : FS

/-- Calling get_log_directory in a process state: the body contains no
write to the environment or filesystem, so the state passes through
unchanged. -/
def run_get_log_directory (σ : ProcState) (env_variable : String) :
    Except EnvironmentVariableNotFoundError PyPath × ProcState :=
  (get_log_directory σ.env σ.fs env_variable, σ)

/-- Calling get_path_from_env in a process state. -/
def run_get_path_from_env (σ : ProcState) (env_variable : String)
    (check_if_exists : Bool) :
    Except EnvironmentVariableNotFoundError PyPath × ProcState :=
  (get_path_from_env σ.env σ.fs env_variable check_if_exists, σ)

/-- Calling get_integer_from_env in a process state. -/
def run_get_integer_from_env (σ : ProcState) (env_variable : String)
    (default_value : Int) : Int × ProcState :=
  (get_integer_from_env σ.env env_variable default_value, σ)

/-- Calling get_float_from_env in a process state. -/
def run_get_float_from_env (σ : ProcState) (env_variable : String)
    (default_value : PyFloat) : PyFloat × ProcState :=
  (get_float_from_env σ.env env_variable default_value, σ)

/-- Calling get_string_from_env in a process state. -/
def run_get_string_from_env (σ : ProcState) (env_variable : String)
    (default_value : String) (error_on_missing_value : Bool) :
    Except EnvironmentVariableNotFoundError String × ProcState :=
  (get_string_from_env σ.env env_variable default_value
     error_on_missing_value, σ)

/-- Calling get_boolean_from_env in a process state. -/
def run_get_boolean_from_env (σ : ProcState) (env_variable : String)
    (default_value : Bool) : Bool × ProcState :=
  (get_boolean_from_env σ.env env_variable default_value, σ)

/-- The empty environment: every variable unset. -/
def emptyEnv : Env := fun _ => none

/-- An environment with exactly one variable set. -/
def envWith (k v : String) : Env := fun n => if n = k then some v else none

/-- A filesystem on which no path exists. -/
def fsNone : FS := fun _ => false

/-- A filesystem on which every path exists. -/
def fsAll : FS := fun _ => true

/-- C1: the claim says get_string_from_env with the variable unset and
error_on_missing_value false returns the caller-supplied default
unchanged; the code instead feeds the absent value (None) through str and
returns the text None. Concretely, with MYVAR unset and default fallback,
the function returns ok None, which differs from the default. -/
theorem C1_get_string_unset_yields_None_not_default :
    get_string_from_env emptyEnv ("MYVAR") ("fallback") false
      = Except.ok ("None")
    ∧ ("None" : String) ≠ ("fallback") := by
  constructor
  · rfl
  · decide

/-- C2: whenever the variable is unset, get_path_from_env raises
EnvironmentVariableNotFoundError, for either value of check_if_exists. -/
theorem C2_get_path_unset_raises (env : Env) (fs : FS) (n : String)
    (check_if_exists : Bool) (h : env n = none) :
    get_path_from_env env fs n check_if_exists
      = Except.error (mkNotFound n) := by
  simp [get_path_from_env, h]

theorem C2_get_path_unset_raises_witness :
    get_path_from_env emptyEnv fsNone ("P") true
        = Except.error (mkNotFound ("P"))
    ∧ get_path_from_env emptyEnv fsNone ("P") false
        = Except.error (mkNotFound ("P")) :=
  ⟨C2_get_path_unset_raises emptyEnv fsNone ("P") true rfl,
   C2_get_path_unset_raises emptyEnv fsNone ("P") false rfl⟩

/-- C3: the only error the module raises is
EnvironmentVariableNotFoundError carrying the offending variable name,
raised exactly in four conditions: get_path_from_env on an unset variable;
get_path_from_env with existence checking on a missing path; 
get_log_directory on a set variable whose path is missing; and
get_string_from_env with error_on_missing_value on an unset variable. In
every complementary condition those functions return ok, and
get_integer_from_env, get_float_from_env and get_boolean_from_env have
plain (non-Except) return types in this embedding because their Python
bodies catch every coercion failure: they never raise, resolving unset and
malformed values to the caller-supplied default, as the final conjuncts
state. -/
theorem C3_error_conditions :
    (∀ n : String, (mkNotFound n).variable_name = n) ∧
    (∀ (env : Env) (fs : FS) (n : String) (c : Bool), env n = none →
        get_path_from_env env fs n c = Except.error (mkNotFound n)) ∧
    (∀ (env : Env) (fs : FS) (n v : String), env n = some v → fs v = false →
        get_path_from_env env fs n true = Except.error (mkNotFound n)) ∧
    (∀ (env : Env) (fs : FS) (n v : String) (c : Bool), env n = some v →
        (c = false ∨ fs v = true) →
        get_path_from_env env fs n c = Except.ok (PyPath.mk v)) ∧
    (∀ (env : Env) (fs : FS) (n v : String), env n = some v → fs v = false →
        get_log_directory env fs n = Except.error (mkNotFound n)) ∧
    (∀ (env : Env) (fs : FS) (n : String), env n = none →
        ∃ p, get_log_directory env fs n = Except.ok p) ∧
    (∀ (env : Env) (fs : FS) (n v : String), env n = some v → fs v = true →
        ∃ p, get_log_directory env fs n = Except.ok p) ∧
    (∀ (env : Env) (n d : String), env n = none →
        get_string_from_env env n d true = Except.error (mkNotFound n)) ∧
    (∀ (env : Env) (n d : String) (e : Bool),
        e = false ∨ (env n).isSome = true →
        ∃ s, get_string_from_env env n d e = Except.ok s) ∧
    (∀ (env : Env) (n : String) (d : Int), env n = none →
        get_integer_from_env env n d = d) ∧
    (∀ (env : Env) (n v : String) (d : Int), env n = some v →
        pyInt v = Except.error () → get_integer_from_env env n d = d) ∧
    (∀ (env : Env) (n : String) (d : PyFloat), env n = none →
        get_float_from_env env n d = d) ∧
    (∀ (env : Env) (n v : String) (d : PyFloat), env n = some v →
        pyFloat v = Except.error () → get_float_from_env env n d = d) ∧
    (∀ (env : Env) (n : String) (d : Bool), env n = none →
        get_boolean_from_env env n d = d) ∧
    (∀ (env : Env) (n v : String) (d : Bool), env n = some v →
        ["true", "1", "yes", "on"].contains (pyLower v) = false →
        ["false", "0", "no", "off"].contains (pyLower v) = false →
        get_boolean_from_env env n d = d) := by
  refine ⟨?_, ?_, ?_, ?_, ?_, ?_, ?_, ?_, ?_, ?_, ?_, ?_, ?_, ?_, ?_⟩
  · intro n
    simp [mkNotFound, EnvironmentVariableNotFoundError.make]
  · intro env fs n c h
    simp [get_path_from_env, h]
  · intro env fs n v h hfs
    simp [get_path_from_env, h, hfs]
  · intro env fs n v c h hd
    rcases hd with h1 | h1 <;> simp [get_path_from_env, h, h1]
  · intro env fs n v h hfs
    simp [get_log_directory, h, hfs]
  · intro env fs n h
    exact ⟨PyPath.mk ("."), by simp [get_log_directory, h]⟩
  · intro env fs n v h hfs
    exact ⟨PyPath.mk v, by simp [get_log_directory, h, hfs]⟩
  · intro env n d h
    simp [get_string_from_env, h]
  · intro env n d e hd
    rcases hd with h1 | h1
    · exact ⟨pyStr (env n), by simp [get_string_from_env, pyStrE, h1]⟩
    · obtain ⟨v, hv⟩ := Option.isSome_iff_exists.mp h1
      exact ⟨v, by simp [get_string_from_env, pyStrE, pyStr, hv]⟩
  · intro env n d h
    simp [get_integer_from_env, h]
  · intro env n v d h hp
    simp [get_integer_from_env, h, hp]
  · intro env n d h
    simp [get_float_from_env, h]
  · intro env n v d h hp
    simp [get_float_from_env, h, hp]
  · intro env n d h
    simp [get_boolean_from_env, h]
  · intro env n v d h h1 h2
    simp at h1 h2
    simp [get_boolean_from_env, h, h1, h2]

theorem C3_error_conditions_witness :
    get_string_from_env emptyEnv ("SV") ("d") true
      = Except.error (mkNotFound ("SV")) :=
  C3_error_conditions.2.2.2.2.2.2.2.1 emptyEnv ("SV") ("d") rfl

/-- C4: get_boolean_from_env returns true when the lowercased value is
among true, 1, yes, on; false when it is among false, 0, no, off; and the
caller-supplied default for any other value and when the variable is
unset. -/
theorem C4_get_boolean_spec (env : Env) (n : String) (d : Bool) :
    (env n = none → get_boolean_from_env env n d = d) ∧
    (∀ v, env n = some v →
      (["true", "1", "yes", "on"].contains (pyLower v) = true →
          get_boolean_from_env env n d = true) ∧
      (["false", "0", "no", "off"].contains (pyLower v) = true →
          get_boolean_from_env env n d = false) ∧
      (["true", "1", "yes", "on"].contains (pyLower v) = false →
       ["false", "0", "no", "off"].contains (pyLower v) = false →
          get_boolean_from_env env n d = d)) := by
  refine ⟨?_, ?_⟩
  · intro h
    simp [get_boolean_from_env, h]
  · intro v hv
    refine ⟨?_, ?_, ?_⟩
    · intro h1
      simp at h1
      simp [get_boolean_from_env, hv, h1]
    · intro h1
      simp at h1
      rcases h1 with h1 | h1 | h1 | h1 <;> simp [get_boolean_from_env, hv, h1]
    · intro h1 h2
      simp at h1 h2
      simp [get_boolean_from_env, hv, h1, h2]

theorem C4_get_boolean_spec_witness :
    get_boolean_from_env (envWith ("B1") ("TRUE")) ("B1") false = true ∧
    get_boolean_from_env (envWith ("B2") ("Off")) ("B2") true = false ∧
    get_boolean_from_env (envWith ("B3") ("maybe")) ("B3") true = true :=
  ⟨((C4_get_boolean_spec (envWith ("B1") ("TRUE")) ("B1") false).2
      ("TRUE") rfl).1 rfl,
   ((C4_get_boolean_spec (envWith ("B2") ("Off")) ("B2") true).2
      ("Off") rfl).2.1 rfl,
   ((C4_get_boolean_spec (envWith ("B3") ("maybe")) ("B3") true).2
      ("maybe") rfl).2.2 rfl rfl⟩

/-- C5: get_integer_from_env returns the caller-supplied default when the
variable is unset or its value is rejected by int, and the parsed integer
when int accepts the value. -/
theorem C5_get_integer_spec (env : Env) (n : String) (d : Int) :
    (env n = none → get_integer_from_env env n d = d) ∧
    (∀ v, env n = some v →
      (pyInt v = Except.error () → get_integer_from_env env n d = d) ∧
      (∀ k, pyInt v = Except.ok k → get_integer_from_env env n d = k)) := by
  refine ⟨?_, ?_⟩
  · intro h
    simp [get_integer_from_env, h]
  · intro v hv
    refine ⟨?_, ?_⟩
    · intro hp
      simp [get_integer_from_env, hv, hp]
    · intro k hp
      simp [get_integer_from_env, hv, hp]

theorem C5_get_integer_spec_witness :
    get_integer_from_env (envWith ("N1") ("42")) ("N1") 0 = 42 ∧
    get_integer_from_env (envWith ("N2") ("abc")) ("N2") 7 = 7 :=
  ⟨((C5_get_integer_spec (envWith ("N1") ("42")) ("N1") 0).2
      ("42") rfl).2 42 rfl,
   ((C5_get_integer_spec (envWith ("N2") ("abc")) ("N2") 7).2
      ("abc") rfl).1 rfl⟩

/-- C6: get_log_directory returns the current working directory path (the
relative dot path, which designates the working directory) when the
variable is unset; returns the configured path when it is set and exists;
raises EnvironmentVariableNotFoundError carrying the variable name when it
is set but the path is missing; and never creates a directory: the
process state, filesystem included, passes through a call unchanged. -/
theorem C6_get_log_directory_spec :
    (∀ (env : Env) (fs : FS) (n : String), env n = none →
        get_log_directory env fs n = Except.ok (PyPath.mk ("."))) ∧
    (∀ (env : Env) (fs : FS) (n v : String), env n = some v → fs v = true →
        get_log_directory env fs n = Except.ok (PyPath.mk v)) ∧
    (∀ (env : Env) (fs : FS) (n v : String), env n = some v → fs v = false →
        get_log_directory env fs n = Except.error (mkNotFound n) ∧
        (mkNotFound n).variable_name = n) ∧
    (∀ (σ : ProcState) (n : String), (run_get_log_directory σ n).2 = σ) := by
  refine ⟨?_, ?_, ?_, ?_⟩
  · intro env fs n h
    simp [get_log_directory, h]
  · intro env fs n v h hfs
    simp [get_log_directory, h, hfs]
  · intro env fs n v h hfs
    refine ⟨by simp [get_log_directory, h, hfs], ?_⟩
    simp [mkNotFound, EnvironmentVariableNotFoundError.make]
  · intro σ n
    rfl

theorem C6_get_log_directory_spec_witness :
    get_log_directory emptyEnv fsNone ("L1") = Except.ok (PyPath.mk (".")) ∧
    get_log_directory (envWith ("L2") ("logs")) fsAll ("L2")
        = Except.ok (PyPath.mk ("logs")) ∧
    get_log_directory (envWith ("L3") ("logs")) fsNone ("L3")
        = Except.error (mkNotFound ("L3")) :=
  ⟨C6_get_log_directory_spec.1 emptyEnv fsNone ("L1") rfl,
   C6_get_log_directory_spec.2.1 (envWith ("L2") ("logs")) fsAll ("L2")
      ("logs") rfl rfl,
   (C6_get_log_directory_spec.2.2.1 (envWith ("L3") ("logs")) fsNone ("L3")
      ("logs") rfl rfl).1⟩

/-- C7: every accessor leaves the process state (environment and
filesystem) unchanged, and a second call with the same arguments in the
state left by the first returns the same result as the first: the bodies
only read the environment, so both facts hold definitionally. -/
theorem C7_accessors_pure_idempotent :
    (∀ (σ : ProcState) (n : String),
        (run_get_log_directory σ n).2 = σ ∧
        (run_get_log_directory (run_get_log_directory σ n).2 n).1
          = (run_get_log_directory σ n).1) ∧
    (∀ (σ : ProcState) (n : String) (c : Bool),
        (run_get_path_from_env σ n c).2 = σ ∧
        (run_get_path_from_env (run_get_path_from_env σ n c).2 n c).1
          = (run_get_path_from_env σ n c).1) ∧
    (∀ (σ : ProcState) (n : String) (d : Int),
        (run_get_integer_from_env σ n d).2 = σ ∧
        (run_get_integer_from_env (run_get_integer_from_env σ n d).2 n d).1
          = (run_get_integer_from_env σ n d).1) ∧
    (∀ (σ : ProcState) (n : String) (d : PyFloat),
        (run_get_float_from_env σ n d).2 = σ ∧
        (run_get_float_from_env (run_get_float_from_env σ n d).2 n d).1
          = (run_get_float_from_env σ n d).1) ∧
    (∀ (σ : ProcState) (n d : String) (e : Bool),
        (run_get_string_from_env σ n d e).2 = σ ∧
        (run_get_string_from_env (run_get_string_from_env σ n d e).2 n d e).1
          = (run_get_string_from_env σ n d e).1) ∧
    (∀ (σ : ProcState) (n : String) (d : Bool),
        (run_get_boolean_from_env σ n d).2 = σ ∧
        (run_get_boolean_from_env (run_get_boolean_from_env σ n d).2 n d).1
          = (run_get_boolean_from_env σ n d).1) :=
  ⟨fun _ _ => ⟨rfl, rfl⟩, fun _ _ _ => ⟨rfl, rfl⟩, fun _ _ _ => ⟨rfl, rfl⟩,
   fun _ _ _ => ⟨rfl, rfl⟩, fun _ _ _ _ => ⟨rfl, rfl⟩,
   fun _ _ _ => ⟨rfl, rfl⟩⟩

/-- C8: whenever the variable is set, get_string_from_env returns exactly
the raw value, for every default and both settings of
error_on_missing_value; and since str applied to an optional string never
raises ValueError, the except branch that would return the default is
dead: the result never depends on default_value at all, as the second
conjunct states. -/
theorem C8_get_string_set_returns_raw :
    (∀ (env : Env) (n v d : String) (e : Bool), env n = some v →
        get_string_from_env env n d e = Except.ok v) ∧
    (∀ (env : Env) (n d1 d2 : String) (e : Bool),
        get_string_from_env env n d1 e = get_string_from_env env n d2 e) := by
  refine ⟨?_, ?_⟩
  · intro env n v d e h
    simp [get_string_from_env, pyStrE, pyStr, h]
  · intro env n d1 d2 e
    rfl

theorem C8_get_string_set_returns_raw_witness :
    get_string_from_env (envWith ("S1") ("raw")) ("S1") ("ignored") true
      = Except.ok ("raw") :=
  C8_get_string_set_returns_raw.1 (envWith ("S1") ("raw")) ("S1") ("raw")
    ("ignored") true rfl

/-- C9: whenever the variable is set and check_if_exists is false,
get_path_from_env returns the value as a path and never raises, on every
filesystem, in particular one on which the path does not exist. -/
theorem C9_get_path_nocheck_ok (env : Env) (fs : FS) (n v : String)
    (h : env n = some v) :
    get_path_from_env env fs n false = Except.ok (PyPath.mk v) := by
  simp [get_path_from_env, h]

theorem C9_get_path_nocheck_ok_witness :
    get_path_from_env (envWith ("P1") ("absent")) fsNone ("P1") false
        = Except.ok (PyPath.mk ("absent")) ∧
    fsNone ("absent") = false :=
  ⟨C9_get_path_nocheck_ok (envWith ("P1") ("absent")) fsNone ("P1")
      ("absent") rfl, rfl⟩

/-- C10: when the variable is unset, get_log_directory returns the
literal relative dot path, never raises, and consults no filesystem
existence oracle in that branch: the result is the same on every
filesystem. -/
theorem C10_log_directory_unset_literal_dot (env : Env) (n : String)
    (h : env n = none) :
    (∀ fs : FS, get_log_directory env fs n = Except.ok (PyPath.mk ("."))) ∧
    (∀ fs fs2 : FS, get_log_directory env fs n = get_log_directory env fs2 n)
    := by
  have hd : ∀ fs : FS, get_log_directory env fs n
      = Except.ok (PyPath.mk (".")) := by
    intro fs
    simp [get_log_directory, h]
  exact ⟨hd, fun fs fs2 => (hd fs).trans (hd fs2).symm⟩

theorem C10_log_directory_unset_literal_dot_witness :
    get_log_directory emptyEnv fsNone ("LOGDIR")
      = Except.ok (PyPath.mk (".")) :=
  (C10_log_directory_unset_literal_dot emptyEnv ("LOGDIR") rfl).1 fsNone
